import Mathlib

/-!
Shallow embedding of the Enterprise Monitoring Platform core
(`backend/app/services/asset_monitor.py`, `backend/app/api/alerts.py`,
`backend/app/services/websocket_manager.py`).

Floats are modelled as rationals (`ℚ`), timestamps as integers (`ℤ`,
seconds), enum-typed columns by inductive types and string-typed status
columns by `String`, exactly as the code compares them.  Fallible Python
code (division by zero, the `try`/`except` in `check_thresholds`) is
modelled with `Except`.
-/

namespace Monitoring

/-- Severity enum `AlertSeverity` from `models.py`. -/
inductive AlertSeverity
  | low
  | medium
  | high
  | critical
deriving DecidableEq, Repr

/-- Asset-type enum `AssetType` from `models.py`. -/
inductive AssetType
  | financial
  | manufacturing
deriving DecidableEq, Repr

/-- The columns of `models.Asset` that the monitoring core reads or writes.
`status` is kept as a `String` because the code assigns raw string literals
("failed", "maintenance", "active") to it. -/
structure Asset where
  id : Nat
  name : String
  asset_type : AssetType
  status : String
  symbol : Option String
  current_price : Option ℚ
  next_maintenance_date : Option ℤ
  health_score : ℚ
deriving DecidableEq, Repr

/-- The columns of `models.Alert` used by the core (the `status` column is a
plain string in the schema: open, acknowledged, resolved, closed). -/
structure Alert where
  id : Nat
  asset_id : Option Nat
  title : String
  description : String
  severity : AlertSeverity
  status : String
  metric_type : Option String
  threshold_value : Option ℚ
  actual_value : Option ℚ
  resolved_at : Option ℤ
  resolved_by : Option Nat
  resolution_notes : Option String
  created_at : ℤ
deriving DecidableEq, Repr

/-- The keyword arguments passed to the `Alert(...)` constructor by the two
threshold checkers (ids and timestamps are assigned by the database later). -/
structure NewAlert where
  asset_id : Option Nat
  title : String
  description : String
  severity : AlertSeverity
  metric_type : Option String
  threshold_value : Option ℚ
  actual_value : Option ℚ
  status : String
deriving DecidableEq, Repr

/-- One entry of `AssetMonitor.THRESHOLDS`: a dict that may or may not carry
each key, modelled with `Option` fields. -/
structure ThresholdConfig where
  min : Option ℚ
  max : Option ℚ
  critical : Option ℚ
  change_percent : Option ℚ
  critical_change : Option ℚ
deriving DecidableEq, Repr

/-- The `AssetMonitor.THRESHOLDS` table (`asset_monitor.py`). -/
def THRESHOLDS : String → Option ThresholdConfig
  | "temperature" => some ⟨some 20, some 80, some 90, none, none⟩
  | "vibration" => some ⟨some 0, some 5, some 8, none, none⟩
  | "pressure" => some ⟨some 0, some 80, some 95, none, none⟩
  | "voltage" => some ⟨some 210, some 230, some 240, none, none⟩
  | "current" => some ⟨some 0, some 10, some 15, none, none⟩
  | "stock_price" => some ⟨none, none, none, some 5, some 10⟩
  | _ => none

/-- Python's `a or b` over optional numbers: `0` and `None` are falsy.  Used
for `thresholds.get("max") or thresholds.get("min") or thresholds.get("critical")`. -/
def pyOrQ (a b : Option ℚ) : Option ℚ :=
  match a with
  | some x => if x = 0 then b else some x
  | none => b

/-- Python `repr` of a float, for the exactly representable values this code
formats into descriptions (`f"{value}"`): integral rationals print with a
trailing `.0`; other values are abstracted by the rational's own rendering. -/
def pyRepr (q : ℚ) : String :=
  if q.den = 1 then toString q.num ++ ".0" else toString q

/-- Python f-string interpolation of a nullable string column (`None` prints
as "None"). -/
def pyStrOpt : Option String → String
  | some s => s
  | none => "None"

/-- CPython's fixed-point formatting `f"{q:.2f}"` of a nonnegative value,
modelled as rounding `q` to hundredths (exact on inputs whose scaled value is
not a tie, which covers every value formatted in this development). -/
def fmt2 (q : ℚ) : String :=
  let n : ℤ := (q.num * 200 + (q.den : ℤ)) / (2 * (q.den : ℤ))
  let w : ℤ := n / 100
  let f : ℤ := n % 100
  toString w ++ "." ++ (if f < 10 then "0" else "") ++ toString f

/-- `AssetMonitor._check_numeric_threshold`: the `critical` / `max` / `min`
elif chain; returns the `Alert(...)` payload the code would `db.add`, or
`none` when no threshold fires. -/
def checkNumericThreshold (asset : Asset) (metric_type : String) (value : ℚ)
    (th : ThresholdConfig) : Option NewAlert :=
  let minCheck : Option (AlertSeverity × String) :=
    match th.min with
    | some m =>
      if value < m then
        some (AlertSeverity.medium,
          "Medium " ++ metric_type ++ ": " ++ pyRepr value ++
            " below minimum threshold " ++ pyRepr m)
      else none
    | none => none
  let maxCheck : Option (AlertSeverity × String) :=
    match th.max with
    | some m =>
      if value > m then
        some (AlertSeverity.high,
          "High " ++ metric_type ++ ": " ++ pyRepr value ++
            " exceeds maximum threshold " ++ pyRepr m)
      else minCheck
    | none => minCheck
  let verdict : Option (AlertSeverity × String) :=
    match th.critical with
    | some c =>
      if value > c then
        some (AlertSeverity.critical,
          "Critical " ++ metric_type ++ ": " ++ pyRepr value ++
            " exceeds critical threshold " ++ pyRepr c)
      else maxCheck
    | none => maxCheck
  verdict.map fun p =>
    { asset_id := some asset.id
      title := metric_type.capitalize ++ " Alert for " ++ asset.name
      description := p.2
      severity := p.1
      metric_type := some metric_type
      threshold_value := pyOrQ (pyOrQ th.max th.min) th.critical
      actual_value := some value
      status := "open" }

/-- `AssetMonitor._check_stock_threshold`.  `prev_metric` is the value of the
second-newest `stock_price` metric for the asset (the repository query).  The
division `(value - prev_value) / prev_value` raises `ZeroDivisionError` in
Python when the previous value is `0`, modelled with `Except.error`. -/
def checkStockThreshold (asset : Asset) (value : ℚ) (prev_metric : Option ℚ)
    (th : ThresholdConfig) : Except String (Option NewAlert) :=
  match prev_metric with
  | none => Except.ok none
  | some prev_value =>
    match asset.current_price with
    | none => Except.ok none
    | some _ =>
      if prev_value = 0 then
        Except.error "ZeroDivisionError: float division by zero"
      else
        let change_percent : ℚ := abs ((value - prev_value) / prev_value * 100)
        let direction : String := if value > prev_value then "increased" else "decreased"
        let verdict : Option (AlertSeverity × String) :=
          if change_percent > (th.critical_change).getD 10 then
            some (AlertSeverity.critical,
              "Critical stock movement: " ++ pyStrOpt asset.symbol ++ " " ++
                direction ++ " by " ++ fmt2 change_percent ++ "%")
          else if change_percent > (th.change_percent).getD 5 then
            some (AlertSeverity.high,
              "Significant stock movement: " ++ pyStrOpt asset.symbol ++ " " ++
                direction ++ " by " ++ fmt2 change_percent ++ "%")
          else none
        Except.ok <| verdict.map fun p =>
          { asset_id := some asset.id
            title := "Stock Price Alert for " ++ pyStrOpt asset.symbol
            description := p.2
            severity := p.1
            metric_type := some "stock_price"
            threshold_value := th.change_percent
            actual_value := some change_percent
            status := "open" }

/-- Per-alert penalty of `AssetMonitor._update_health_score`. -/
def severityPenalty : AlertSeverity → ℚ
  | AlertSeverity.critical => 20
  | AlertSeverity.high => 10
  | AlertSeverity.medium => 5
  | AlertSeverity.low => 2

/-- Seven days in seconds (`timedelta(days=7)`). -/
def weekSeconds : ℤ := 7 * 86400

/-- `Alert.status.in_(["open", "acknowledged"])`. -/
def isActiveStatus (s : String) : Bool :=
  s == "open" || s == "acknowledged"

/-- The alert-penalty score of `AssetMonitor._update_health_score`: the
clamped `100 - penalty` over the asset's active alerts of the trailing week,
with the manufacturing maintenance-overdue penalty.  (The code also queries
recent metrics but never uses them.) -/
def computeHealthScore (asset : Asset) (alerts : List Alert) (now : ℤ) : ℚ :=
  let week_ago : ℤ := now - weekSeconds
  let recent_alerts := alerts.filter fun a =>
    (a.asset_id == some asset.id) && (week_ago ≤ a.created_at : Bool) &&
      isActiveStatus a.status
  let penalty : ℚ := (recent_alerts.map fun a => severityPenalty a.severity).sum
  let health_score : ℚ := max 0 (100 - penalty)
  if asset.asset_type = AssetType.manufacturing then
    match asset.next_maintenance_date with
    | some d => if d < now then max 0 (health_score - 30) else health_score
    | none => health_score
  else health_score

/-- `AssetMonitor._update_health_score`: writes the clamped score back to the
asset and derives the status from the (local, unclamped) score. -/
def updateHealthScore (asset : Asset) (alerts : List Alert) (now : ℤ) : Asset :=
  let health_score := computeHealthScore asset alerts now
  let asset2 := { asset with health_score := min 100 health_score }
  if health_score < 30 then { asset2 with status := "failed" }
  else if health_score < 70 then { asset2 with status := "maintenance" }
  else if asset2.status = "failed" ∧ 70 ≤ health_score then { asset2 with status := "active" }
  else asset2

/-- The kinds routed to `_check_numeric_threshold` by `check_thresholds`. -/
def numericKinds : List String :=
  ["temperature", "vibration", "pressure", "voltage", "current"]

/-- Materialize a `NewAlert` as a stored row: the database assigns the id and
`created_at`; the resolution columns default to NULL. -/
def insertNewAlert (na : NewAlert) (id : Nat) (now : ℤ) : Alert :=
  { id := id
    asset_id := na.asset_id
    title := na.title
    description := na.description
    severity := na.severity
    status := na.status
    metric_type := na.metric_type
    threshold_value := na.threshold_value
    actual_value := na.actual_value
    resolved_at := none
    resolved_by := none
    resolution_notes := none
    created_at := now }

/-- The mutable state `check_thresholds` works on: the asset and alert
tables plus the id sequence. -/
structure DB where
  assets : List Asset
  alerts : List Alert
  nextAlertId : Nat
deriving DecidableEq, Repr

/-- `db.add(alert)` inside a threshold check. -/
def addAlert (db : DB) (na : NewAlert) (now : ℤ) : DB :=
  { db with
    alerts := db.alerts ++ [insertNewAlert na db.nextAlertId now]
    nextAlertId := db.nextAlertId + 1 }

/-- Persisting the in-place mutation of the asset row. -/
def updateAssetInDB (db : DB) (asset : Asset) : DB :=
  { db with assets := db.assets.map fun a => if a.id = asset.id then asset else a }

/-- `AssetMonitor.check_thresholds`: look the asset and its thresholds up,
run the matching checker, recompute the health score, and commit; any
exception (notably the stock check's division by zero) is caught and the
session rolled back, leaving the state unchanged. -/
def check_thresholds (db : DB) (asset_id : Nat) (metric_type : String) (value : ℚ)
    (prev_metric : Option ℚ) (now : ℤ) : DB :=
  match db.assets.find? (fun a => a.id == asset_id) with
  | none => db
  | some asset =>
    match THRESHOLDS metric_type with
    | none => db
    | some th =>
      let attempt : Except String DB :=
        if numericKinds.contains metric_type then
          let db1 :=
            match checkNumericThreshold asset metric_type value th with
            | some na => addAlert db na now
            | none => db
          Except.ok (updateAssetInDB db1 (updateHealthScore asset db1.alerts now))
        else if metric_type = "stock_price" then
          match checkStockThreshold asset value prev_metric th with
          | Except.error e => Except.error e
          | Except.ok verdict =>
            let db1 :=
              match verdict with
              | some na => addAlert db na now
              | none => db
            Except.ok (updateAssetInDB db1 (updateHealthScore asset db1.alerts now))
        else
          Except.ok (updateAssetInDB db (updateHealthScore asset db.alerts now))
      match attempt with
      | Except.ok db2 => db2
      | Except.error _ => db

/-- The body of `schemas.AlertUpdate` with pydantic's exclude-unset
semantics: `none` means the field was not supplied. -/
structure AlertUpdate where
  status : Option String
  resolved_by : Option Nat
  resolution_notes : Option String
deriving DecidableEq, Repr

/-- The field assignment of `api/alerts.py::update_alert` on one row: apply
the supplied fields, and when the new status is `resolved` or `closed`
overwrite `resolved_at` with now and `resolved_by` with the acting user. -/
def updateAlertRecord (alert : Alert) (upd : AlertUpdate) (now : ℤ) (user_id : Nat) : Alert :=
  let a := match upd.status with
    | some s => { alert with status := s }
    | none => alert
  let a := match upd.resolved_by with
    | some r => { a with resolved_by := some r }
    | none => a
  let a := match upd.resolution_notes with
    | some n => { a with resolution_notes := some n }
    | none => a
  if upd.status = some "resolved" ∨ upd.status = some "closed" then
    { a with resolved_at := some now, resolved_by := some user_id }
  else a

/-- `api/alerts.py::update_alert` over the alert table: 404 when the id is
absent, otherwise update the row and return the new table and row. -/
def update_alert (db : List Alert) (alert_id : Nat) (upd : AlertUpdate) (now : ℤ)
    (user_id : Nat) : Except String (List Alert × Alert) :=
  match db.find? (fun a => a.id == alert_id) with
  | none => Except.error "Alert not found"
  | some alert =>
    let a2 := updateAlertRecord alert upd now user_id
    Except.ok (db.map (fun b => if b.id = alert_id then a2 else b), a2)

/-- `api/alerts.py::acknowledge_alerts`: every alert whose id is in the
request is set to `acknowledged` (the code applies no status filter), and the
response message counts the matched alerts. -/
def acknowledge_alerts (db : List Alert) (alert_ids : List Nat) : List Alert × String :=
  let matched := db.filter fun a => alert_ids.contains a.id
  (db.map fun a =>
    if alert_ids.contains a.id then { a with status := "acknowledged" } else a,
   toString matched.length ++ " alerts acknowledged")

/-- One iteration of the broadcast loop in
`websocket_manager.py::WebSocketManager.broadcast`: try the send; a success
is a delivery, a raised exception is caught and the connection queued for
removal. -/
def broadcastStep (send : Nat → Except String Unit) (acc : List Nat × List Nat)
    (c : Nat) : List Nat × List Nat :=
  match send c with
  | Except.ok _ => (acc.1 ++ [c], acc.2)
  | Except.error _ => (acc.1, acc.2 ++ [c])

/-- `WebSocketManager.broadcast`: attempt the send to every connection, then
remove the failed ones from the connection list (via `disconnect`, which is
`List.erase`).  Returns (delivered connections, new connection list); the
function is total — no exception escapes to the caller. -/
def broadcast (active_connections : List Nat) (send : Nat → Except String Unit) :
    List Nat × List Nat :=
  let r := active_connections.foldl (broadcastStep send) ([], [])
  (r.1, r.2.foldl (fun cs c => cs.erase c) active_connections)

/-- Whether a send attempt succeeded. -/
def sendOk (send : Nat → Except String Unit) (c : Nat) : Bool :=
  match send c with
  | Except.ok _ => true
  | Except.error _ => false

/-- The severity carried by a stock-check outcome, when it produced an alert. -/
def severityOfVerdict : Except String (Option NewAlert) → Option AlertSeverity
  | Except.ok (some na) => some na.severity
  | _ => none

/-- Spec invariant (c), one direction: resolution metadata is present on
every resolved or closed alert. -/
def resolvedImpliesMeta (a : Alert) : Prop :=
  (a.status = "resolved" ∨ a.status = "closed") →
    a.resolved_at ≠ none ∧ a.resolved_by ≠ none

/-- A stored alert that has already been resolved (by user 7, at time 100). -/
def resolvedAlert : Alert :=
  { id := 1
    asset_id := none
    title := "Disk usage"
    description := "d"
    severity := AlertSeverity.low
    status := "resolved"
    metric_type := none
    threshold_value := none
    actual_value := none
    resolved_at := some 100
    resolved_by := some 7
    resolution_notes := none
    created_at := 0 }

/-- A request body that resolves an alert, supplying only the status. -/
def updResolve : AlertUpdate :=
  { status := some "resolved", resolved_by := none, resolution_notes := none }

/-- The `stock_price` row of the thresholds table. -/
def stockCfg : ThresholdConfig := ⟨none, none, none, some 5, some 10⟩

/-- The `temperature` row of the thresholds table. -/
def tempCfg : ThresholdConfig := ⟨some 20, some 80, some 90, none, none⟩

/-- A financial asset with a reference price, used for the stock scenarios. -/
def stockAsset : Asset :=
  { id := 1
    name := "Acme"
    asset_type := AssetType.financial
    status := "active"
    symbol := some "ACME"
    current_price := some 100
    next_maintenance_date := none
    health_score := 100 }

/-- A fixed evaluation instant for the health-score scenarios. -/
def nowT : ℤ := 1000000

/-- A manufacturing asset whose maintenance was due one day before `nowT`,
with an arbitrary stored health score. -/
def mfgAsset (hs : ℚ) : Asset :=
  { id := 2
    name := "Press"
    asset_type := AssetType.manufacturing
    status := "active"
    symbol := none
    current_price := none
    next_maintenance_date := some (nowT - 86400)
    health_score := hs }

/-- A one-asset database for the division-by-zero scenario. -/
def stockDB : DB := { assets := [stockAsset], alerts := [], nextAlertId := 1 }

/-- A send function that fails for subscriber 2 and succeeds for the rest. -/
def sendEx : Nat → Except String Unit :=
  fun c => if c = 2 then Except.error "send failed" else Except.ok ()

/-- `resolvedAlert` after being resolved a second time at time 200 by user 9. -/
def reresolvedAlert : Alert :=
  { resolvedAlert with status := "resolved", resolved_at := some 200, resolved_by := some 9 }

/-- The body of `schemas.AlertCreate` (= `AlertBase`): `status` is a plain
string defaulting to "open", with no validator, so any client-supplied status
is accepted.  The nullable description column is modelled as a plain string,
as in `Alert`. -/
structure AlertCreate where
  asset_id : Option Nat
  title : String
  description : String
  severity : AlertSeverity
  status : String
  metric_type : Option String
  threshold_value : Option ℚ
  actual_value : Option ℚ
deriving DecidableEq, Repr

/-- `api/alerts.py::create_alert`: when the body carries a Python-truthy
`asset_id` (non-null and non-zero) the asset is looked up and a missing asset
is a 404; otherwise the body is materialized as a new alert row via
`Alert(**alert_data.dict(), ...)`.  `resolved_at`/`resolved_by` are not part
of the request body and default to NULL; the row's `user_id` column is
outside the embedding, as everywhere. -/
def create_alert (assets : List Asset) (body : AlertCreate) (id : Nat) (now : ℤ) :
    Except String Alert :=
  let row : Alert :=
    { id := id
      asset_id := body.asset_id
      title := body.title
      description := body.description
      severity := body.severity
      status := body.status
      metric_type := body.metric_type
      threshold_value := body.threshold_value
      actual_value := body.actual_value
      resolved_at := none
      resolved_by := none
      resolution_notes := none
      created_at := now }
  match body.asset_id with
  | some aid =>
    if aid ≠ 0 then
      match assets.find? (fun a => a.id == aid) with
      | none => Except.error "Asset not found"
      | some _ => Except.ok row
    else Except.ok row
  | none => Except.ok row

/-- A creation request whose client-supplied status is already "resolved". -/
def resolvedBody : AlertCreate :=
  { asset_id := none
    title := "Manual"
    description := ""
    severity := AlertSeverity.medium
    status := "resolved"
    metric_type := none
    threshold_value := none
    actual_value := none }

/-- The row `create_alert` materializes from `resolvedBody` (id 5, time 0). -/
def createdResolved : Alert :=
  { id := 5
    asset_id := none
    title := "Manual"
    description := ""
    severity := AlertSeverity.medium
    status := "resolved"
    metric_type := none
    threshold_value := none
    actual_value := none
    resolved_at := none
    resolved_by := none
    resolution_notes := none
    created_at := 0 }

/-- Claim C1 counterexample: bulk acknowledge applied to an alert whose
status is already "resolved" does not leave it unchanged — it transitions the
alert back to "acknowledged" (the code filters only by id, never by status). -/
theorem ack_resolved_alert_changes_status :
    resolvedAlert.status = "resolved" ∧
    (acknowledge_alerts [resolvedAlert] [1]).1 =
      [{ resolvedAlert with status := "acknowledged" }] ∧
    ("acknowledged" : String) ≠ "resolved" :=
  ⟨rfl, rfl, by decide⟩

/-- Claim C1 (amended): bulk acknowledge transitions every alert whose id is
in the request to "acknowledged" regardless of its current status (including
alerts already acknowledged, resolved or closed), leaves non-matching alerts
unchanged, and is not an error. -/
theorem acknowledge_sets_every_matched (db : List Alert) (ids : List Nat)
    (a : Alert) (ha : a ∈ db) :
    (if ids.contains a.id then { a with status := "acknowledged" } else a)
      ∈ (acknowledge_alerts db ids).1 := by
  unfold acknowledge_alerts
  exact List.mem_map_of_mem _ ha

/-- Witness for `acknowledge_sets_every_matched` at a resolved alert. -/
theorem acknowledge_sets_every_matched_witness :
    resolvedAlert ∈ [resolvedAlert] ∧
    (if ([1] : List Nat).contains resolvedAlert.id then
        { resolvedAlert with status := "acknowledged" } else resolvedAlert)
      ∈ (acknowledge_alerts [resolvedAlert] [1]).1 :=
  ⟨List.mem_singleton.mpr rfl,
    acknowledge_sets_every_matched [resolvedAlert] [1] resolvedAlert
      (List.mem_singleton.mpr rfl)⟩

/-- Claim C3 counterexample: updating an already-resolved alert with status
"resolved" again is not a no-op: `resolved_at` moves from 100 to the new
current time 200 (and `resolved_by` to the new acting user). -/
theorem reresolve_overwrites_timestamp :
    resolvedAlert.status = "resolved" ∧
    resolvedAlert.resolved_at = some 100 ∧
    update_alert [resolvedAlert] 1 updResolve 200 9 =
      Except.ok ([reresolvedAlert], reresolvedAlert) ∧
    reresolvedAlert.resolved_at = some 200 ∧
    some (200 : ℤ) ≠ some (100 : ℤ) :=
  ⟨rfl, rfl, rfl, rfl, by decide⟩

/-- Claim C3 (amended): applying an update whose status is "resolved" or
"closed" to any alert — including one already resolved — always overwrites
`resolved_at` with the current time and `resolved_by` with the acting user,
so re-resolving is not a no-op on `resolved_at`. -/
theorem reresolve_sets_fresh_metadata (alert : Alert) (upd : AlertUpdate)
    (now : ℤ) (uid : Nat)
    (h : upd.status = some "resolved" ∨ upd.status = some "closed") :
    (updateAlertRecord alert upd now uid).resolved_at = some now ∧
    (updateAlertRecord alert upd now uid).resolved_by = some uid := by
  unfold updateAlertRecord
  rw [if_pos h]
  exact ⟨rfl, rfl⟩

/-- Witness for `reresolve_sets_fresh_metadata` at the resolved alert. -/
theorem reresolve_sets_fresh_metadata_witness :
    updResolve.status = some "resolved" ∧
    ((updateAlertRecord resolvedAlert updResolve 200 9).resolved_at = some 200 ∧
     (updateAlertRecord resolvedAlert updResolve 200 9).resolved_by = some 9) :=
  ⟨rfl, reresolve_sets_fresh_metadata resolvedAlert updResolve 200 9 (Or.inl rfl)⟩

/-- Claim C2 counterexample: the iff invariant fails on the code in both
directions.  Bulk-acknowledging the resolved alert leaves a row whose status
is neither "resolved" nor "closed" but whose `resolved_at` is still set; and
create accepts a client-supplied status "resolved" (the schema field is an
unvalidated string), producing a resolved alert whose `resolved_at` and
`resolved_by` are NULL. -/
theorem resolution_meta_iff_fails_both_ways :
    ((acknowledge_alerts [resolvedAlert] [1]).1 =
        [{ resolvedAlert with status := "acknowledged" }] ∧
     ({ resolvedAlert with status := "acknowledged" } : Alert).status ≠ "resolved" ∧
     ({ resolvedAlert with status := "acknowledged" } : Alert).status ≠ "closed" ∧
     ({ resolvedAlert with status := "acknowledged" } : Alert).resolved_at = some 100) ∧
    (create_alert [] resolvedBody 5 0 = Except.ok createdResolved ∧
     createdResolved.status = "resolved" ∧
     createdResolved.resolved_at = none ∧
     createdResolved.resolved_by = none) :=
  ⟨⟨rfl, by decide, by decide, rfl⟩, ⟨rfl, rfl, rfl, rfl⟩⟩

theorem updateAlertRecord_preserves_meta (alert : Alert) (upd : AlertUpdate)
    (now : ℤ) (uid : Nat) (h : resolvedImpliesMeta alert) :
    resolvedImpliesMeta (updateAlertRecord alert upd now uid) := by
  obtain ⟨st, rb, rn⟩ := upd
  unfold resolvedImpliesMeta updateAlertRecord at *
  rcases st with _ | s
  · rw [if_neg (by simp)]
    rcases rb with _ | r <;> rcases rn with _ | n <;>
      refine fun hst => ⟨(h hst).1, ?_⟩ <;>
        first
          | exact (h hst).2
          | exact Option.some_ne_none _
  · by_cases hsv : (some s : Option String) = some "resolved" ∨
      (some s : Option String) = some "closed"
    · rw [if_pos hsv]
      exact fun _ => ⟨Option.some_ne_none _, Option.some_ne_none _⟩
    · rw [if_neg hsv]
      rcases rb with _ | r <;> rcases rn with _ | n <;>
        exact fun hst => absurd (hst.imp (congrArg some) (congrArg some)) hsv

theorem checkNumericThreshold_status_open (asset : Asset) (mt : String) (v : ℚ)
    (th : ThresholdConfig) (na : NewAlert)
    (h : checkNumericThreshold asset mt v th = some na) : na.status = "open" := by
  unfold checkNumericThreshold at h
  dsimp only at h
  obtain ⟨p, _, hf⟩ := Option.map_eq_some'.mp h
  rw [← hf]

theorem checkStockThreshold_status_open (asset : Asset) (v : ℚ) (pm : Option ℚ)
    (th : ThresholdConfig) (na : NewAlert)
    (h : checkStockThreshold asset v pm th = Except.ok (some na)) : na.status = "open" := by
  rcases pm with _ | pv
  · simp [checkStockThreshold] at h
  · rcases hcp : asset.current_price with _ | p
    · simp [checkStockThreshold, hcp] at h
    · by_cases hz : pv = 0
      · simp [checkStockThreshold, hcp, hz] at h
      · simp only [checkStockThreshold, hcp] at h
        rw [if_neg hz] at h
        have h2 := Except.ok.inj h
        obtain ⟨p2, _, hf⟩ := Option.map_eq_some'.mp h2
        rw [← hf]

theorem create_alert_shape (assets : List Asset) (body : AlertCreate)
    (i : Nat) (t : ℤ) (a : Alert) (h : create_alert assets body i t = Except.ok a) :
    a.status = body.status ∧ a.resolved_at = none ∧ a.resolved_by = none := by
  rcases hai : body.asset_id with _ | aid <;>
    simp only [create_alert, hai] at h
  · obtain rfl := (Except.ok.inj h).symm
    exact ⟨rfl, rfl, rfl⟩
  · by_cases h0 : aid ≠ 0
    · rw [if_pos h0] at h
      rcases hf : assets.find? (fun a => a.id == aid) with _ | b <;> rw [hf] at h
      · exact absurd h (by simp)
      · obtain rfl := (Except.ok.inj h).symm
        exact ⟨rfl, rfl, rfl⟩
    · rw [if_neg h0] at h
      obtain rfl := (Except.ok.inj h).symm
      exact ⟨rfl, rfl, rfl⟩

/-- Claim C2 (amended): the iff does not hold on the code, in either
direction; what the code does enforce is this.  Every alert the threshold
checkers create starts "open" with NULL resolution metadata; bulk acknowledge
and alert update preserve the forward implication (status resolved/closed →
`resolved_at`/`resolved_by` non-null) on any alert table already satisfying
it; and an alert created through the API satisfies that implication exactly
when the client-supplied status is not "resolved"/"closed" — the request may
name a resolved status outright, in which case the new row violates even the
forward implication (and the converse fails because bulk acknowledge keeps
the metadata of a resolved alert it moves back to "acknowledged"). -/
theorem resolution_meta_enforcement (db : List Alert)
    (hdb : ∀ a ∈ db, resolvedImpliesMeta a) (ids : List Nat) (alert_id : Nat)
    (upd : AlertUpdate) (now : ℤ) (uid : Nat) :
    (∀ a ∈ (acknowledge_alerts db ids).1, resolvedImpliesMeta a) ∧
    (∀ db2 a2, update_alert db alert_id upd now uid = Except.ok (db2, a2) →
      ∀ a ∈ db2, resolvedImpliesMeta a) ∧
    (∀ (asset : Asset) (mt : String) (v : ℚ) (th : ThresholdConfig) (na : NewAlert)
        (i : Nat) (t : ℤ), checkNumericThreshold asset mt v th = some na →
      resolvedImpliesMeta (insertNewAlert na i t)) ∧
    (∀ (asset : Asset) (v : ℚ) (pm : Option ℚ) (th : ThresholdConfig) (na : NewAlert)
        (i : Nat) (t : ℤ), checkStockThreshold asset v pm th = Except.ok (some na) →
      resolvedImpliesMeta (insertNewAlert na i t)) ∧
    (∀ (assets : List Asset) (body : AlertCreate) (i : Nat) (t : ℤ) (a : Alert),
      create_alert assets body i t = Except.ok a →
      (resolvedImpliesMeta a ↔ ¬(body.status = "resolved" ∨ body.status = "closed"))) := by
  refine ⟨?_, ?_, ?_, ?_, ?_⟩
  · intro a ha
    unfold acknowledge_alerts at ha
    obtain ⟨b, hb, hba⟩ := List.mem_map.mp ha
    subst hba
    by_cases hc : ids.contains b.id
    · rw [if_pos hc]
      intro hst
      rcases hst with hst | hst <;> simp at hst
    · rw [if_neg hc]
      exact hdb b hb
  · intro db2 a2 hok a ha
    unfold update_alert at hok
    cases hfind : db.find? (fun a => a.id == alert_id) with
    | none => rw [hfind] at hok; exact absurd hok (by simp)
    | some alert =>
      rw [hfind] at hok
      have halert : alert ∈ db := List.mem_of_find?_eq_some hfind
      have hmeta := updateAlertRecord_preserves_meta alert upd now uid (hdb alert halert)
      have hdb2 : db2 = db.map fun b =>
          if b.id = alert_id then updateAlertRecord alert upd now uid else b := by
        have := Except.ok.inj hok
        exact (congrArg Prod.fst this.symm)
      subst hdb2
      obtain ⟨b, hb, hba⟩ := List.mem_map.mp ha
      subst hba
      by_cases hid : b.id = alert_id
      · rw [if_pos hid]; exact hmeta
      · rw [if_neg hid]; exact hdb b hb
  · intro asset mt v th na i t h
    have hst := checkNumericThreshold_status_open asset mt v th na h
    intro hbad
    rcases hbad with hbad | hbad <;>
      · rw [show (insertNewAlert na i t).status = na.status from rfl, hst] at hbad
        simp at hbad
  · intro asset v pm th na i t h
    have hst := checkStockThreshold_status_open asset v pm th na h
    intro hbad
    rcases hbad with hbad | hbad <;>
      · rw [show (insertNewAlert na i t).status = na.status from rfl, hst] at hbad
        simp at hbad
  · intro assets body i t a h
    obtain ⟨hs, hra, hrb⟩ := create_alert_shape assets body i t a h
    unfold resolvedImpliesMeta
    rw [hs, hra]
    constructor
    · intro himp hbad
      exact (himp hbad).1 rfl
    · intro hnot hbad
      exact absurd hbad hnot

/-- Witness for `resolution_meta_enforcement` on a one-alert table. -/
theorem resolution_meta_enforcement_witness :
    (∀ a ∈ [resolvedAlert], resolvedImpliesMeta a) ∧
    ((∀ a ∈ (acknowledge_alerts [resolvedAlert] [1]).1, resolvedImpliesMeta a) ∧
     (∀ db2 a2, update_alert [resolvedAlert] 1 updResolve 200 9 = Except.ok (db2, a2) →
        ∀ a ∈ db2, resolvedImpliesMeta a) ∧
     (∀ (asset : Asset) (mt : String) (v : ℚ) (th : ThresholdConfig) (na : NewAlert)
        (i : Nat) (t : ℤ), checkNumericThreshold asset mt v th = some na →
        resolvedImpliesMeta (insertNewAlert na i t)) ∧
     (∀ (asset : Asset) (v : ℚ) (pm : Option ℚ) (th : ThresholdConfig) (na : NewAlert)
        (i : Nat) (t : ℤ), checkStockThreshold asset v pm th = Except.ok (some na) →
        resolvedImpliesMeta (insertNewAlert na i t)) ∧
     (∀ (assets : List Asset) (body : AlertCreate) (i : Nat) (t : ℤ) (a : Alert),
        create_alert assets body i t = Except.ok a →
        (resolvedImpliesMeta a ↔ ¬(body.status = "resolved" ∨ body.status = "closed")))) :=
  have hdb : ∀ a ∈ [resolvedAlert], resolvedImpliesMeta a := by
    intro a ha
    rw [List.mem_singleton.mp ha]
    exact fun _ => ⟨by simp [resolvedAlert], by simp [resolvedAlert]⟩
  ⟨hdb, resolution_meta_enforcement [resolvedAlert] hdb [1] 1 updResolve 200 9⟩

theorem fmt2_ten : fmt2 10 = "10.00" := by
  unfold fmt2
  norm_num [Rat.num_ofNat, Rat.den_ofNat]
  decide

/-- Claim C4 counterexample: with previous=100, new=90 the change percent is
exactly 10, which does not exceed the configured critical change bound 10
(the code uses a strict `>`), so the verdict severity is high, not critical. -/
theorem stock_boundary_severity_not_critical :
    THRESHOLDS "stock_price" = some stockCfg ∧
    severityOfVerdict (checkStockThreshold stockAsset 90 (some 100) stockCfg) =
      some AlertSeverity.high ∧
    some AlertSeverity.high ≠ some AlertSeverity.critical := by
  refine ⟨rfl, ?_, by decide⟩
  have h10 : abs (((90 : ℚ) - 100) / 100 * 100) = 10 := by norm_num
  unfold checkStockThreshold stockAsset severityOfVerdict
  norm_num [h10, stockCfg]

/-- Claim C4 (amended): for a stock_price sample with previous=100 and new=90
(change percent exactly 10, critical_change 10) the evaluator produces a
verdict of severity high — not critical, because 10 does not strictly exceed
the critical bound — whose description reads "decreased by 10.00%". -/
theorem stock_boundary_high_with_description :
    checkStockThreshold stockAsset 90 (some 100) stockCfg =
      Except.ok (some
        { asset_id := some 1
          title := "Stock Price Alert for ACME"
          description := "Significant stock movement: ACME decreased by 10.00%"
          severity := AlertSeverity.high
          metric_type := some "stock_price"
          threshold_value := some 5
          actual_value := some 10
          status := "open" }) := by
  have h10 : abs (((90 : ℚ) - 100) / 100 * 100) = 10 := by norm_num
  unfold checkStockThreshold stockAsset
  norm_num [h10, fmt2_ten, stockCfg, pyStrOpt]
  decide

/-- Claim C5 counterexample: the recomputation does not apply the −30
maintenance penalty to the previously stored score 70 — it starts from 100,
subtracts the (empty) alert penalty, then the 30, giving 70, and the status
the code derives for a score of 70 is the unchanged prior status ("active"),
not "maintenance". -/
theorem overdue_maintenance_score_is_70_not_40 :
    (mfgAsset 70).health_score = 70 ∧
    (updateHealthScore (mfgAsset 70) [] nowT).health_score = 70 ∧
    (updateHealthScore (mfgAsset 70) [] nowT).status = "active" ∧
    (70 : ℚ) ≠ 40 ∧ ("active" : String) ≠ "maintenance" := by
  refine ⟨rfl, ?_, ?_, by norm_num, by decide⟩ <;>
    · unfold updateHealthScore computeHealthScore mfgAsset nowT weekSeconds
      norm_num

/-- Claim C5 (amended): for a manufacturing asset whose
`next_maintenance_date` is one day before now and with no active alerts in
the trailing 7-day window, recomputation yields score 70 — 100 minus the
maintenance penalty 30, independent of whatever health score (such as 70) was
stored before — and leaves the status at "active" (70 is not below the
maintenance cutoff 70). -/
theorem overdue_maintenance_recompute_ignores_prior (hs : ℚ) :
    (updateHealthScore (mfgAsset hs) [] nowT).health_score = 70 ∧
    (updateHealthScore (mfgAsset hs) [] nowT).status = "active" := by
  unfold updateHealthScore computeHealthScore mfgAsset nowT weekSeconds
  norm_num

/-- Claim C6: for every bounded-numeric sample, whenever the value strictly
exceeds the configured critical threshold the checker produces exactly one
alert and its severity is critical — never high or medium, even if the value
also exceeds the max threshold — because the critical/max/min checks form an
elif chain in which the first true condition wins, and at most one alert
(`Option`) is produced per sample. -/
theorem numeric_critical_takes_precedence (asset : Asset) (metric_type : String)
    (value : ℚ) (th : ThresholdConfig) (c : ℚ)
    (hc : th.critical = some c) (hv : c < value) :
    ∃ na, checkNumericThreshold asset metric_type value th = some na ∧
      na.severity = AlertSeverity.critical := by
  unfold checkNumericThreshold
  rw [hc]
  dsimp only
  rw [if_pos hv]
  exact ⟨_, rfl, rfl⟩

/-- Witness for `numeric_critical_takes_precedence`: a temperature of 95
(above both max 80 and critical 90) yields a critical alert. -/
theorem numeric_critical_takes_precedence_witness :
    tempCfg.critical = some 90 ∧ (90 : ℚ) < 95 ∧
    ∃ na, checkNumericThreshold stockAsset "temperature" 95 tempCfg = some na ∧
      na.severity = AlertSeverity.critical :=
  ⟨rfl, by norm_num,
    numeric_critical_takes_precedence stockAsset "temperature" 95 tempCfg 90 rfl
      (by norm_num)⟩

theorem penaltySum_nonneg (l : List Alert) :
    0 ≤ (l.map fun a => severityPenalty a.severity).sum := by
  apply List.sum_nonneg
  intro x hx
  obtain ⟨b, _, rfl⟩ := List.mem_map.mp hx
  cases b.severity <;> norm_num [severityPenalty]

theorem computeHealthScore_bounds (asset : Asset) (alerts : List Alert) (now : ℤ) :
    0 ≤ computeHealthScore asset alerts now ∧
    computeHealthScore asset alerts now ≤ 100 := by
  unfold computeHealthScore
  set pen := ((alerts.filter fun a =>
    (a.asset_id == some asset.id) && (now - weekSeconds ≤ a.created_at : Bool) &&
      isActiveStatus a.status).map fun a => severityPenalty a.severity).sum with hpen
  have hp : 0 ≤ pen := penaltySum_nonneg _
  have h0 : (0 : ℚ) ≤ max 0 (100 - pen) := le_max_left _ _
  have h100 : max (0 : ℚ) (100 - pen) ≤ 100 := max_le (by norm_num) (by linarith)
  split
  · split
    · split
      · exact ⟨le_max_left _ _, max_le (by norm_num) (by linarith)⟩
      · exact ⟨h0, h100⟩
    · exact ⟨h0, h100⟩
  · exact ⟨h0, h100⟩

/-- Claim C7: after any health-score recomputation — whatever the asset, its
stored score, its alert set and the current time — the stored health score
lies in [0, 100]; since the recomputation never reads the previous stored
score, this bound holds after every recomputation of any sequence. -/
theorem health_score_always_in_range (asset : Asset) (alerts : List Alert) (now : ℤ) :
    0 ≤ (updateHealthScore asset alerts now).health_score ∧
    (updateHealthScore asset alerts now).health_score ≤ 100 := by
  obtain ⟨h0, _⟩ := computeHealthScore_bounds asset alerts now
  unfold updateHealthScore
  dsimp only
  split_ifs <;>
    exact ⟨le_min (by norm_num) h0, min_le_left _ _⟩

theorem updateHealthScore_id (a : Asset) (al : List Alert) (n : ℤ) :
    (updateHealthScore a al n).id = a.id := by
  unfold updateHealthScore
  dsimp only
  split_ifs <;> rfl

theorem updateHealthScore_asset_type (a : Asset) (al : List Alert) (n : ℤ) :
    (updateHealthScore a al n).asset_type = a.asset_type := by
  unfold updateHealthScore
  dsimp only
  split_ifs <;> rfl

theorem updateHealthScore_nmd (a : Asset) (al : List Alert) (n : ℤ) :
    (updateHealthScore a al n).next_maintenance_date = a.next_maintenance_date := by
  unfold updateHealthScore
  dsimp only
  split_ifs <;> rfl

theorem computeHealthScore_after_update (a : Asset) (al : List Alert) (n : ℤ) :
    computeHealthScore (updateHealthScore a al n) al n =
      computeHealthScore a al n := by
  conv_lhs => unfold computeHealthScore
  conv_rhs => unfold computeHealthScore
  rw [updateHealthScore_id, updateHealthScore_asset_type, updateHealthScore_nmd]

/-- Claim C9: health-score recomputation is idempotent — recomputing twice
with the same alert set and the same now produces the same asset record
(hence the same score and status) as recomputing once. -/
theorem recompute_idempotent (asset : Asset) (alerts : List Alert) (now : ℤ) :
    updateHealthScore (updateHealthScore asset alerts now) alerts now =
      updateHealthScore asset alerts now := by
  have hcs := computeHealthScore_after_update asset alerts now
  by_cases h1 : computeHealthScore asset alerts now < 30
  · have hu : updateHealthScore asset alerts now =
        { asset with health_score := min 100 (computeHealthScore asset alerts now),
                     status := "failed" } := by
      unfold updateHealthScore
      dsimp only
      rw [if_pos h1]
    rw [hu] at hcs ⊢
    unfold updateHealthScore
    dsimp only
    rw [hcs, if_pos h1]
  · by_cases h2 : computeHealthScore asset alerts now < 70
    · have hu : updateHealthScore asset alerts now =
          { asset with health_score := min 100 (computeHealthScore asset alerts now),
                       status := "maintenance" } := by
        unfold updateHealthScore
        dsimp only
        rw [if_neg h1, if_pos h2]
      rw [hu] at hcs ⊢
      unfold updateHealthScore
      dsimp only
      rw [hcs, if_neg h1, if_pos h2]
    · by_cases h3 : asset.status = "failed" ∧ 70 ≤ computeHealthScore asset alerts now
      · have hu : updateHealthScore asset alerts now =
            { asset with health_score := min 100 (computeHealthScore asset alerts now),
                         status := "active" } := by
          unfold updateHealthScore
          dsimp only
          rw [if_neg h1, if_neg h2, if_pos h3]
        rw [hu] at hcs ⊢
        unfold updateHealthScore
        dsimp only
        rw [hcs, if_neg h1, if_neg h2, if_neg (by simp)]
      · have hu : updateHealthScore asset alerts now =
            { asset with health_score := min 100 (computeHealthScore asset alerts now) } := by
          unfold updateHealthScore
          dsimp only
          rw [if_neg h1, if_neg h2, if_neg h3]
        rw [hu] at hcs ⊢
        unfold updateHealthScore
        dsimp only
        rw [hcs, if_neg h1, if_neg h2,
          if_neg (by simpa using fun hf => absurd ⟨hf, le_of_not_lt h2⟩ h3)]

theorem broadcast_foldl_spec (send : Nat → Except String Unit) (l : List Nat)
    (acc : List Nat × List Nat) :
    l.foldl (broadcastStep send) acc =
      (acc.1 ++ l.filter (fun c => sendOk send c),
       acc.2 ++ l.filter (fun c => !sendOk send c)) := by
  induction l generalizing acc with
  | nil => simp
  | cons c l ih =>
    rw [List.foldl_cons, ih]
    unfold broadcastStep sendOk
    cases hsc : send c <;> simp [hsc, List.filter_cons, sendOk]

theorem eraseFold_mem (ds : List Nat) (cs : List Nat) (h : cs.Nodup) (x : Nat) :
    x ∈ ds.foldl (fun l c => l.erase c) cs ↔ x ∈ cs ∧ x ∉ ds := by
  induction ds generalizing cs with
  | nil => simp
  | cons d ds ih =>
    rw [List.foldl_cons, ih (cs.erase d) (h.erase d), h.mem_erase_iff]
    simp only [List.mem_cons]
    tauto

/-- Claim C8: when a broadcast hits a failing subscriber, every subscriber
whose send succeeds still receives the event and stays in the subscriber set,
every subscriber whose send fails is removed from the subscriber set, and the
call returns normally to the caller — `broadcast` is a total function, each
send failure being caught inside the loop. -/
theorem broadcast_isolates_failures (conns : List Nat)
    (send : Nat → Except String Unit) (hnd : conns.Nodup) :
    (∀ c ∈ conns, sendOk send c = true → c ∈ (broadcast conns send).1) ∧
    (∀ c ∈ conns, sendOk send c = false → c ∉ (broadcast conns send).2) ∧
    (∀ c ∈ conns, sendOk send c = true → c ∈ (broadcast conns send).2) := by
  unfold broadcast
  rw [broadcast_foldl_spec]
  dsimp only
  simp only [List.nil_append]
  refine ⟨?_, ?_, ?_⟩
  · intro c hc hok
    exact List.mem_filter.mpr ⟨hc, hok⟩
  · intro c hc hfail
    rw [eraseFold_mem _ _ hnd]
    intro ⟨_, habs⟩
    exact habs (List.mem_filter.mpr ⟨hc, by simp [hfail]⟩)
  · intro c hc hok
    rw [eraseFold_mem _ _ hnd]
    refine ⟨hc, fun hmem => ?_⟩
    have := (List.mem_filter.mp hmem).2
    simp [hok] at this

/-- Witness for `broadcast_isolates_failures`: three subscribers, the send to
subscriber 2 fails; 1 and 3 receive the event and stay subscribed, 2 is
dropped. -/
theorem broadcast_isolates_failures_witness :
    ([1, 2, 3] : List Nat).Nodup ∧
    (1 ∈ (broadcast [1, 2, 3] sendEx).1 ∧ 3 ∈ (broadcast [1, 2, 3] sendEx).1 ∧
     2 ∉ (broadcast [1, 2, 3] sendEx).2 ∧ 1 ∈ (broadcast [1, 2, 3] sendEx).2 ∧
     3 ∈ (broadcast [1, 2, 3] sendEx).2) :=
  have hnd : ([1, 2, 3] : List Nat).Nodup := by decide
  have h := broadcast_isolates_failures [1, 2, 3] sendEx hnd
  ⟨hnd,
    h.1 1 (by decide) (by decide), h.1 3 (by decide) (by decide),
    h.2.1 2 (by decide) (by decide),
    h.2.2 1 (by decide) (by decide), h.2.2 3 (by decide) (by decide)⟩

/-- Claim C10: when a previous stock_price metric with value 0 exists and the
asset's current_price is non-null, the stock check performs an unguarded
division by that previous value and raises ZeroDivisionError instead of
producing a no-verdict; `check_thresholds` catches the exception and rolls
the session back, so the whole evaluation — including the health-score
update — leaves the state unchanged. -/
theorem stock_zero_previous_divzero (db : DB) (aid : Nat) (v : ℚ) (now : ℤ)
    (asset : Asset) (p : ℚ)
    (hfind : db.assets.find? (fun a => a.id == aid) = some asset)
    (hp : asset.current_price = some p) :
    checkStockThreshold asset v (some 0) stockCfg =
      Except.error "ZeroDivisionError: float division by zero" ∧
    check_thresholds db aid "stock_price" v (some 0) now = db := by
  have herr : checkStockThreshold asset v (some 0) stockCfg =
      Except.error "ZeroDivisionError: float division by zero" := by
    unfold checkStockThreshold
    rw [hp]
    simp
  refine ⟨herr, ?_⟩
  unfold check_thresholds
  rw [hfind]
  have hth : THRESHOLDS "stock_price" = some stockCfg := rfl
  rw [hth]
  dsimp only
  rw [show numericKinds.contains "stock_price" = false from rfl]
  simp only [Bool.false_eq_true, if_false, if_pos rfl, herr]
  simp

/-- Witness for `stock_zero_previous_divzero`: a one-asset database whose
asset has a current price; a sample after a previous value of 0 leaves the
database untouched. -/
theorem stock_zero_previous_divzero_witness :
    stockDB.assets.find? (fun a => a.id == 1) = some stockAsset ∧
    stockAsset.current_price = some 100 ∧
    (checkStockThreshold stockAsset 7 (some 0) stockCfg =
        Except.error "ZeroDivisionError: float division by zero" ∧
      check_thresholds stockDB 1 "stock_price" 7 (some 0) 0 = stockDB) :=
  ⟨rfl, rfl, stock_zero_previous_divzero stockDB 1 7 0 stockAsset 100 rfl rfl⟩

end Monitoring
